import Mathlib

/-!
Shallow embedding of the fraud-detection data-generation core
(`backend/data_generators/{config,generator,fraud_patterns}.py` and
`backend/data_generators/models/transaction.py`).

Python floats are modelled as rationals, Python ints as `Int`/`Nat`,
`datetime` values as integer seconds since the epoch.  Every call to the
`random` library is modelled as an explicit parameter of the operation
(the drawn value); the library's range contracts (`random.uniform(a, b)`
returns a value in `[a, b]`, `random.randint(a, b)` one in `[a, b]`,
`random.choice(xs)` a member of `xs`) appear as hypotheses of the
theorems.  An operation that can raise (`random.choice` on an empty
list, a `dict` lookup that can miss) returns an `Option`.
-/

set_option autoImplicit false

/-! ## Domain config (`config.py`) -/

def MERCHANT_CATEGORIES : List String :=
  ["grocery", "restaurant", "gas_station", "pharmacy", "electronics",
   "clothing", "entertainment", "travel", "utilities", "online_retail"]

def CATEGORY_SPENDING_RANGES : List (String × (ℚ × ℚ)) :=
  [("grocery", (20, 150)), ("restaurant", (15, 80)), ("gas_station", (30, 70)),
   ("pharmacy", (10, 100)), ("electronics", (50, 500)), ("clothing", (30, 200)),
   ("entertainment", (20, 150)), ("travel", (100, 1000)), ("utilities", (50, 300)),
   ("online_retail", (25, 250))]

def US_LAT_RANGE : ℚ × ℚ := (25, 49)

def US_LON_RANGE : ℚ × ℚ := (-125, -66)

def FRAUD_PROBABILITY : ℚ := 2 / 100

/-! ## Entity model (`models/transaction.py`) -/

structure User where
  user_id : String
  name : String
  email : String
  phone : String
  home_lat : ℚ
  home_lon : ℚ
  typical_spending : ℚ
  account_age_days : ℤ
deriving DecidableEq

structure Merchant where
  merchant_id : String
  merchant_name : String
  category : String
  location_lat : ℚ
  location_lon : ℚ
  average_transaction : ℚ
deriving DecidableEq

structure Transaction where
  transaction_id : String
  timestamp : ℤ
  user_id : String
  card_number : String
  merchant_id : String
  merchant_name : String
  merchant_category : String
  amount : ℚ
  currency : String
  location_lat : ℚ
  location_lon : ℚ
  device_id : String
  ip_address : String
  is_fraud : Bool
  fraud_type : Option String
deriving DecidableEq

/-! ## Helpers for the embedding -/

/-- Python's `round(x, 2)`: rounding to the nearest hundredth.  (CPython
breaks ties to even; no property below depends on the tie direction,
only on the half-cent error bound, which both conventions satisfy.) -/
def round2 (x : ℚ) : ℚ := (round (x * 100) : ℤ) / 100

/-- `max(lo, min(hi, x))`, the clamping idiom used in
`generate_geographic_anomaly`. -/
def clamp (lo hi x : ℚ) : ℚ := max lo (min hi x)

/-- `random.choice(xs)` given the raw index draw `k`: the element at
`k % len(xs)`; `none` when `xs` is empty (Python raises `IndexError`). -/
def pyChoice {α : Type} (xs : List α) (k : ℕ) : Option α :=
  xs.get? (k % xs.length)

/-- The f-string `f"{a}.{b}.{c}.{d}"` building an IPv4-like string. -/
def ipStr (a b c d : ℕ) : String :=
  toString a ++ "." ++ toString b ++ "." ++ toString c ++ "." ++ toString d

def pad2 (n : ℕ) : String :=
  if n < 10 then "0" ++ toString n else toString n

def pad4 (n : ℕ) : String :=
  if n < 10 then "000" ++ toString n
  else if n < 100 then "00" ++ toString n
  else if n < 1000 then "0" ++ toString n
  else toString n

/-- Civil date (year, month, day) from days since 1970-01-01
(standard era-based conversion). -/
def civilFromDays (z0 : ℤ) : ℤ × ℕ × ℕ :=
  let z := z0 + 719468
  let era : ℤ := (if 0 ≤ z then z else z - 146096) / 146097
  let doe : ℤ := z - era * 146097
  let yoe : ℤ := (doe - doe / 1460 + doe / 36524 - doe / 146096) / 365
  let y : ℤ := yoe + era * 400
  let doy : ℤ := doe - (365 * yoe + yoe / 4 - yoe / 100)
  let mp : ℤ := (5 * doy + 2) / 153
  let d : ℤ := doy - (153 * mp + 2) / 5 + 1
  let m : ℤ := mp + (if mp < 10 then 3 else -9)
  (y + (if m ≤ 2 then 1 else 0), m.toNat, d.toNat)

/-- `datetime.isoformat()` for a second-granularity timestamp:
`YYYY-MM-DDTHH:MM:SS`. -/
def isoFormat (t : ℤ) : String :=
  let sod := (t % 86400).toNat
  let days := (t - t % 86400) / 86400
  let c := civilFromDays days
  pad4 c.1.toNat ++ "-" ++ pad2 c.2.1 ++ "-" ++ pad2 c.2.2 ++ "T" ++
    pad2 (sod / 3600) ++ ":" ++ pad2 ((sod % 3600) / 60) ++ ":" ++ pad2 (sod % 60)

/-- `datetime.now().replace(hour=h, minute=m)`: keep the date and the
seconds, replace hour and minute. -/
def replaceHourMinute (t h m : ℤ) : ℤ :=
  t - t % 86400 + h * 3600 + m * 60 + t % 86400 % 3600 % 60

/-- The scalar values occurring in the flat `dict` produced by
`Transaction.to_dict` (string, number, boolean, or null). -/
inductive DVal where
  | s (v : String)
  | num (v : ℚ)
  | b (v : Bool)
  | null
deriving DecidableEq

/-- `Transaction.to_dict`: `asdict(self)` in dataclass field order, with
`timestamp` rendered as an ISO-8601 string. -/
def Transaction.to_dict (t : Transaction) : List (String × DVal) :=
  [("transaction_id", DVal.s t.transaction_id),
   ("timestamp", DVal.s (isoFormat t.timestamp)),
   ("user_id", DVal.s t.user_id),
   ("card_number", DVal.s t.card_number),
   ("merchant_id", DVal.s t.merchant_id),
   ("merchant_name", DVal.s t.merchant_name),
   ("merchant_category", DVal.s t.merchant_category),
   ("amount", DVal.num t.amount),
   ("currency", DVal.s t.currency),
   ("location_lat", DVal.num t.location_lat),
   ("location_lon", DVal.num t.location_lon),
   ("device_id", DVal.s t.device_id),
   ("ip_address", DVal.s t.ip_address),
   ("is_fraud", DVal.b t.is_fraud),
   ("fraud_type", match t.fraud_type with
                  | some f => DVal.s f
                  | none => DVal.null)]

/-! ## Population generator (`generator.py`, `TransactionGenerator.__init__`) -/

/-- The draws one iteration of `_generate_users` consumes:
`str(uuid.uuid4())[:8]`, the three decorative faker strings, the two
uniform coordinates, `random.uniform(50, 500)` and
`random.randint(30, 3650)`. -/
structure UserDraw where
  uuid8 : String
  name : String
  email : String
  phone : String
  lat : ℚ
  lon : ℚ
  spending : ℚ
  age : ℤ
deriving DecidableEq

def makeUser (d : UserDraw) : User :=
  { user_id := "USER_" ++ d.uuid8
    name := d.name
    email := d.email
    phone := d.phone
    home_lat := d.lat
    home_lon := d.lon
    typical_spending := d.spending
    account_age_days := d.age }

/-- `_generate_users`: a `for i in range(num_users)` loop appending one
user per iteration.  `range` of a non-positive count is empty, so the
loop body never runs and no error is raised. -/
def generate_users (num_users : ℤ) (draws : ℕ → UserDraw) : List User :=
  (List.range num_users.toNat).map (fun i => makeUser (draws i))

/-- The draws one iteration of `_generate_merchants` consumes:
`random.choice(MERCHANT_CATEGORIES)` (raw index), `str(uuid.uuid4())[:8]`,
`fake.company()` and the two uniform coordinates. -/
structure MerchantDraw where
  kCat : ℕ
  uuid8 : String
  company : String
  lat : ℚ
  lon : ℚ
deriving DecidableEq

def makeMerchant (d : MerchantDraw) : Merchant :=
  let category := MERCHANT_CATEGORIES.getD (d.kCat % MERCHANT_CATEGORIES.length) ""
  let range := (CATEGORY_SPENDING_RANGES.lookup category).getD (0, 0)
  { merchant_id := "MERCH_" ++ d.uuid8
    merchant_name := d.company
    category := category
    location_lat := d.lat
    location_lon := d.lon
    -- sum(CATEGORY_SPENDING_RANGES[category]) / 2; the default branch of
    -- the lookup is unreachable because every listed category has a range
    average_transaction := (range.1 + range.2) / 2 }

def generate_merchants (num_merchants : ℤ) (draws : ℕ → MerchantDraw) : List Merchant :=
  (List.range num_merchants.toNat).map (fun i => makeMerchant (draws i))

structure Population where
  users : List User
  merchants : List Merchant
deriving DecidableEq

/-- `TransactionGenerator.__init__(num_users, num_merchants)`: stores the
counts and immediately builds both pools.  The source performs no
validation of either count. -/
def TransactionGenerator_init (num_users num_merchants : ℤ)
    (udraws : ℕ → UserDraw) (mdraws : ℕ → MerchantDraw) : Population :=
  { users := generate_users num_users udraws
    merchants := generate_merchants num_merchants mdraws }

/-! ## Normal-transaction synthesizer (`generator.py`) -/

/-- `generate_normal_transaction`.  `t01` is the unit draw of
`random.uniform(min_amount, max_amount)` (CPython computes
`a + (b - a) * random()`); the category's range comes from the
`CATEGORY_SPENDING_RANGES` dict lookup (a missing key would raise, hence
the `Option`).  `jlat`, `jlon` are the `random.uniform(-0.7, 0.7)`
jitters, `card4` the `random.randint(1000, 9999)` card suffix, `dev` the
device-id draw, `ip` the opaque `fake.ipv4()` string. -/
def generate_normal_transaction (users : List User) (merchants : List Merchant)
    (kU kM : ℕ) (txid : String) (now : ℤ) (card4 : ℕ) (t01 jlat jlon : ℚ)
    (dev : ℕ) (ip : String) : Option Transaction :=
  (pyChoice users kU).bind fun user =>
  (pyChoice merchants kM).bind fun merchant =>
  (CATEGORY_SPENDING_RANGES.lookup merchant.category).map fun range =>
  { transaction_id := txid
    timestamp := now
    user_id := user.user_id
    card_number := "****-****-****-" ++ toString card4
    merchant_id := merchant.merchant_id
    merchant_name := merchant.merchant_name
    merchant_category := merchant.category
    amount := round2 (range.1 + (range.2 - range.1) * t01)
    currency := "USD"
    location_lat := user.home_lat + jlat
    location_lon := user.home_lon + jlon
    device_id := "DEVICE_" ++ toString dev
    ip_address := ip
    is_fraud := false
    fraud_type := none }

/-- `generate_transaction`: draws the Bernoulli trial against
`FRAUD_PROBABILITY`, but the fraud branch of the source also returns
`generate_normal_transaction()` (its body is the comment "We'll
implement fraud patterns in the next step"). -/
def generate_transaction (users : List User) (merchants : List Merchant)
    (r : ℚ) (kU kM : ℕ) (txid : String) (now : ℤ) (card4 : ℕ) (t01 jlat jlon : ℚ)
    (dev : ℕ) (ip : String) : Option Transaction :=
  if r < FRAUD_PROBABILITY then
    generate_normal_transaction users merchants kU kM txid now card4 t01 jlat jlon dev ip
  else
    generate_normal_transaction users merchants kU kM txid now card4 t01 jlat jlon dev ip

/-! ## Fraud pattern library (`fraud_patterns.py`) -/

def high_risk_categories : List String := ["electronics", "jewelry", "online_retail"]

def round_amounts : List ℚ := [100, 200, 250, 500, 750, 1000, 1500]

def fraudTypeTags : List String :=
  ["unusual_amount", "geographic_anomaly", "high_frequency", "card_testing",
   "time_anomaly", "round_amount", "high_risk_category"]

/-- `generate_unusual_amount`.  `mult` is the `random.uniform(10, 20)`
draw; `jlat`, `jlon` the `random.uniform(-0.5, 0.5)` jitters. -/
def generate_unusual_amount (users : List User) (merchants : List Merchant)
    (kU kM : ℕ) (txid : String) (now : ℤ) (card4 : ℕ) (mult jlat jlon : ℚ)
    (dev ipa ipb ipc ipd : ℕ) : Option Transaction :=
  (pyChoice users kU).bind fun user =>
  (pyChoice merchants kM).map fun merchant =>
  { transaction_id := txid
    timestamp := now
    user_id := user.user_id
    card_number := "****-****-****-" ++ toString card4
    merchant_id := merchant.merchant_id
    merchant_name := merchant.merchant_name
    merchant_category := merchant.category
    amount := round2 (user.typical_spending * mult)
    currency := "USD"
    location_lat := user.home_lat + jlat
    location_lon := user.home_lon + jlon
    device_id := "DEVICE_" ++ toString dev
    ip_address := ipStr ipa ipb ipc ipd
    is_fraud := true
    fraud_type := some "unusual_amount" }

/-- `generate_geographic_anomaly`.  `dLat`, `dLon` are the
`random.uniform(10, 30)` offsets, `sLat`, `sLon` the
`random.choice([-1, 1])` signs, `amtU` the `random.uniform(100, 500)`
amount draw; both far coordinates are clamped into the US bounding
box. -/
def generate_geographic_anomaly (users : List User) (merchants : List Merchant)
    (kU kM : ℕ) (txid : String) (now : ℤ) (card4 : ℕ) (dLat sLat dLon sLon amtU : ℚ)
    (dev ipa ipb ipc ipd : ℕ) : Option Transaction :=
  (pyChoice users kU).bind fun user =>
  (pyChoice merchants kM).map fun merchant =>
  { transaction_id := txid
    timestamp := now
    user_id := user.user_id
    card_number := "****-****-****-" ++ toString card4
    merchant_id := merchant.merchant_id
    merchant_name := merchant.merchant_name
    merchant_category := merchant.category
    amount := round2 amtU
    currency := "USD"
    location_lat := clamp US_LAT_RANGE.1 US_LAT_RANGE.2 (user.home_lat + dLat * sLat)
    location_lon := clamp US_LON_RANGE.1 US_LON_RANGE.2 (user.home_lon + dLon * sLon)
    device_id := "DEVICE_" ++ toString dev
    ip_address := ipStr ipa ipb ipc ipd
    is_fraud := true
    fraud_type := some "geographic_anomaly" }

/-- The draws one loop iteration of `generate_high_frequency` consumes. -/
structure HFreqDraw where
  kM : ℕ
  txid : String
  offSec : ℤ
  card4 : ℕ
  amtU : ℚ
  jlat : ℚ
  jlon : ℚ
  dev : ℕ
  ipa : ℕ
  ipb : ℕ
  ipc : ℕ
  ipd : ℕ
deriving DecidableEq

/-- `generate_high_frequency`: one user, `n = random.randint(8, 15)`
transactions, each timestamped `base_time + random.randint(0, 300)`
seconds.  `random.choice(self.merchants)` inside the loop raises on an
empty merchant pool, hence the empty-pool guard. -/
def generate_high_frequency (users : List User) (merchants : List Merchant)
    (kU n : ℕ) (base : ℤ) (draws : ℕ → HFreqDraw) : Option (List Transaction) :=
  (pyChoice users kU).bind fun user =>
  match merchants with
  | [] => if n = 0 then some [] else none
  | m0 :: ms => some ((List.range n).map fun i =>
      let d := draws i
      let merchant := ((m0 :: ms).get? (d.kM % (m0 :: ms).length)).getD m0
      { transaction_id := d.txid
        timestamp := base + d.offSec
        user_id := user.user_id
        card_number := "****-****-****-" ++ toString d.card4
        merchant_id := merchant.merchant_id
        merchant_name := merchant.merchant_name
        merchant_category := merchant.category
        amount := round2 d.amtU
        currency := "USD"
        location_lat := user.home_lat + d.jlat
        location_lon := user.home_lon + d.jlon
        device_id := "DEVICE_" ++ toString d.dev
        ip_address := ipStr d.ipa d.ipb d.ipc d.ipd
        is_fraud := true
        fraud_type := some "high_frequency" })

/-- The draws one loop iteration of `generate_card_testing` consumes
(`offMin` is the `random.randint(0, 30)` minute offset, `amtU` the
`random.uniform(0.50, 5.00)` test amount). -/
structure CardTestDraw where
  kM : ℕ
  txid : String
  offMin : ℤ
  card4 : ℕ
  amtU : ℚ
  jlat : ℚ
  jlon : ℚ
  dev : ℕ
  ipa : ℕ
  ipb : ℕ
  ipc : ℕ
  ipd : ℕ
deriving DecidableEq

/-- `generate_card_testing`: one user, `n = random.randint(5, 10)` small
transactions offset by up to 30 minutes. -/
def generate_card_testing (users : List User) (merchants : List Merchant)
    (kU n : ℕ) (base : ℤ) (draws : ℕ → CardTestDraw) : Option (List Transaction) :=
  (pyChoice users kU).bind fun user =>
  match merchants with
  | [] => if n = 0 then some [] else none
  | m0 :: ms => some ((List.range n).map fun i =>
      let d := draws i
      let merchant := ((m0 :: ms).get? (d.kM % (m0 :: ms).length)).getD m0
      { transaction_id := d.txid
        timestamp := base + d.offMin * 60
        user_id := user.user_id
        card_number := "****-****-****-" ++ toString d.card4
        merchant_id := merchant.merchant_id
        merchant_name := merchant.merchant_name
        merchant_category := merchant.category
        amount := round2 d.amtU
        currency := "USD"
        location_lat := user.home_lat + d.jlat
        location_lon := user.home_lon + d.jlon
        device_id := "DEVICE_" ++ toString d.dev
        ip_address := ipStr d.ipa d.ipb d.ipc d.ipd
        is_fraud := true
        fraud_type := some "card_testing" })

/-- `generate_time_anomaly`.  `hr` is `random.randint(1, 5)`, `minute`
`random.randint(0, 59)`, `amtU` the `random.uniform(100, 800)` draw,
`jlat`, `jlon` the `random.uniform(-2, 2)` jitters. -/
def generate_time_anomaly (users : List User) (merchants : List Merchant)
    (kU kM : ℕ) (txid : String) (now hr minute : ℤ) (card4 : ℕ) (amtU jlat jlon : ℚ)
    (dev ipa ipb ipc ipd : ℕ) : Option Transaction :=
  (pyChoice users kU).bind fun user =>
  (pyChoice merchants kM).map fun merchant =>
  { transaction_id := txid
    timestamp := replaceHourMinute now hr minute
    user_id := user.user_id
    card_number := "****-****-****-" ++ toString card4
    merchant_id := merchant.merchant_id
    merchant_name := merchant.merchant_name
    merchant_category := merchant.category
    amount := round2 amtU
    currency := "USD"
    location_lat := user.home_lat + jlat
    location_lon := user.home_lon + jlon
    device_id := "DEVICE_" ++ toString dev
    ip_address := ipStr ipa ipb ipc ipd
    is_fraud := true
    fraud_type := some "time_anomaly" }

/-- `generate_round_amount`.  `kAmt` is the raw index of
`random.choice(round_amounts)` over the fixed non-empty vocabulary;
`jlat`, `jlon` are the `random.uniform(-1, 1)` jitters. -/
def generate_round_amount (users : List User) (merchants : List Merchant)
    (kU kM : ℕ) (txid : String) (now : ℤ) (card4 kAmt : ℕ) (jlat jlon : ℚ)
    (dev ipa ipb ipc ipd : ℕ) : Option Transaction :=
  (pyChoice users kU).bind fun user =>
  (pyChoice merchants kM).map fun merchant =>
  { transaction_id := txid
    timestamp := now
    user_id := user.user_id
    card_number := "****-****-****-" ++ toString card4
    merchant_id := merchant.merchant_id
    merchant_name := merchant.merchant_name
    merchant_category := merchant.category
    amount := round_amounts.getD (kAmt % round_amounts.length) 0
    currency := "USD"
    location_lat := user.home_lat + jlat
    location_lon := user.home_lon + jlon
    device_id := "DEVICE_" ++ toString dev
    ip_address := ipStr ipa ipb ipc ipd
    is_fraud := true
    fraud_type := some "round_amount" }

/-- The merchants whose category is in `high_risk_categories` (the list
comprehension in `generate_high_risk_category`). -/
def highRiskMerchants (merchants : List Merchant) : List Merchant :=
  merchants.filter (fun m => high_risk_categories.contains m.category)

/-- `generate_high_risk_category`.  The merchant is chosen from the
high-risk subset when it is non-empty and from the whole pool otherwise;
`amtU` is the `random.uniform(2000, 5000)` draw, `jlat`, `jlon` the
`random.uniform(-3, 3)` jitters. -/
def generate_high_risk_category (users : List User) (merchants : List Merchant)
    (kU kM : ℕ) (txid : String) (now : ℤ) (card4 : ℕ) (amtU jlat jlon : ℚ)
    (dev ipa ipb ipc ipd : ℕ) : Option Transaction :=
  (pyChoice users kU).bind fun user =>
  (if (highRiskMerchants merchants).isEmpty then pyChoice merchants kM
   else pyChoice (highRiskMerchants merchants) kM).map fun merchant =>
  { transaction_id := txid
    timestamp := now
    user_id := user.user_id
    card_number := "****-****-****-" ++ toString card4
    merchant_id := merchant.merchant_id
    merchant_name := merchant.merchant_name
    merchant_category := merchant.category
    amount := round2 amtU
    currency := "USD"
    location_lat := user.home_lat + jlat
    location_lon := user.home_lon + jlon
    device_id := "DEVICE_" ++ toString dev
    ip_address := ipStr ipa ipb ipc ipd
    is_fraud := true
    fraud_type := some "high_risk_category" }

/-- The draws `generate_random_fraud` hands to whichever single-record
generator `random.choice` selects (each branch consumes only the fields
its generator needs). -/
structure RandomFraudDraws where
  kU : ℕ
  kM : ℕ
  txid : String
  now : ℤ
  card4 : ℕ
  mult : ℚ
  dLat : ℚ
  sLat : ℚ
  dLon : ℚ
  sLon : ℚ
  hr : ℤ
  minute : ℤ
  kAmt : ℕ
  amtU : ℚ
  jlat : ℚ
  jlon : ℚ
  dev : ℕ
  ipa : ℕ
  ipb : ℕ
  ipc : ℕ
  ipd : ℕ
deriving DecidableEq

/-- `generate_random_fraud`: `random.choice` (raw index `g`) over the
five-element list `[generate_unusual_amount, generate_geographic_anomaly,
generate_time_anomaly, generate_round_amount,
generate_high_risk_category]`, then a call of the selected generator. -/
def generate_random_fraud (users : List User) (merchants : List Merchant)
    (g : ℕ) (d : RandomFraudDraws) : Option Transaction :=
  match g % 5 with
  | 0 => generate_unusual_amount users merchants d.kU d.kM d.txid d.now d.card4
           d.mult d.jlat d.jlon d.dev d.ipa d.ipb d.ipc d.ipd
  | 1 => generate_geographic_anomaly users merchants d.kU d.kM d.txid d.now d.card4
           d.dLat d.sLat d.dLon d.sLon d.amtU d.dev d.ipa d.ipb d.ipc d.ipd
  | 2 => generate_time_anomaly users merchants d.kU d.kM d.txid d.now d.hr d.minute
           d.card4 d.amtU d.jlat d.jlon d.dev d.ipa d.ipb d.ipc d.ipd
  | 3 => generate_round_amount users merchants d.kU d.kM d.txid d.now d.card4 d.kAmt
           d.jlat d.jlon d.dev d.ipa d.ipb d.ipc d.ipd
  | _ => generate_high_risk_category users merchants d.kU d.kM d.txid d.now d.card4
           d.amtU d.jlat d.jlon d.dev d.ipa d.ipb d.ipc d.ipd

/-! ## Helper lemmas -/

lemma pyChoice_mem {α : Type} {xs : List α} {k : ℕ} {a : α}
    (h : pyChoice xs k = some a) : a ∈ xs :=
  List.get?_mem h

lemma getD_head_mem {α : Type} (x : α) (xs : List α) (k : ℕ) :
    ((x :: xs).get? k).getD x ∈ x :: xs := by
  cases h : (x :: xs).get? k with
  | none => simp
  | some a => simpa using List.get?_mem h

lemma abs_round2_sub (x : ℚ) : |round2 x - x| ≤ 1 / 200 := by
  have h : |x * 100 - round (x * 100)| ≤ 1 / 2 := abs_sub_round (x * 100)
  rw [abs_sub_comm] at h
  have heq : round2 x - x = ((round (x * 100) : ℚ) - x * 100) / 100 := by
    unfold round2; ring
  rw [heq, abs_div, abs_of_pos (by norm_num : (0 : ℚ) < 100)]
  linarith

lemma clamp_bounds {lo hi : ℚ} (x : ℚ) (h : lo ≤ hi) :
    lo ≤ clamp lo hi x ∧ clamp lo hi x ≤ hi :=
  ⟨le_max_left _ _, max_le h (min_le_left _ _)⟩

lemma clamp_of_mem {lo hi x : ℚ} (h1 : lo ≤ x) (h2 : x ≤ hi) :
    clamp lo hi x = x := by
  unfold clamp
  rw [min_eq_right h2, max_eq_right h1]

lemma string_append_left_cancel {p a b : String} (h : p ++ a = p ++ b) : a = b := by
  have hd : (p ++ a).data = (p ++ b).data := congrArg String.data h
  simp only [String.data_append] at hd
  have hd2 := List.append_cancel_left hd
  cases a; cases b; simp_all

lemma generate_merchants_category_mem {num_merchants : ℤ} {mdraws : ℕ → MerchantDraw}
    {m : Merchant} (h : m ∈ generate_merchants num_merchants mdraws) :
    m.category ∈ MERCHANT_CATEGORIES := by
  unfold generate_merchants at h
  obtain ⟨i, _, rfl⟩ := List.mem_map.mp h
  show MERCHANT_CATEGORIES.getD ((mdraws i).kCat % MERCHANT_CATEGORIES.length) "" ∈ _
  have hlen : (mdraws i).kCat % MERCHANT_CATEGORIES.length < MERCHANT_CATEGORIES.length := by
    exact Nat.mod_lt _ (by decide)
  rw [List.getD_eq_getElem _ _ hlen]
  exact List.getElem_mem hlen

/-! ## Shape lemmas: what `… = some tx` says about `tx` -/

lemma normal_transaction_eq_some {users : List User} {merchants : List Merchant}
    {kU kM : ℕ} {txid : String} {now : ℤ} {card4 : ℕ} {t01 jlat jlon : ℚ}
    {dev : ℕ} {ip : String} {tx : Transaction}
    (h : generate_normal_transaction users merchants kU kM txid now card4 t01 jlat jlon dev ip = some tx) :
    ∃ user merchant range, pyChoice users kU = some user ∧
      pyChoice merchants kM = some merchant ∧
      CATEGORY_SPENDING_RANGES.lookup merchant.category = some range ∧
      tx = { transaction_id := txid, timestamp := now, user_id := user.user_id,
             card_number := "****-****-****-" ++ toString card4,
             merchant_id := merchant.merchant_id, merchant_name := merchant.merchant_name,
             merchant_category := merchant.category,
             amount := round2 (range.1 + (range.2 - range.1) * t01), currency := "USD",
             location_lat := user.home_lat + jlat, location_lon := user.home_lon + jlon,
             device_id := "DEVICE_" ++ toString dev, ip_address := ip,
             is_fraud := false, fraud_type := none } := by
  unfold generate_normal_transaction at h
  cases hu : pyChoice users kU with
  | none => rw [hu] at h; simp at h
  | some user =>
    cases hm : pyChoice merchants kM with
    | none => rw [hu, hm] at h; simp at h
    | some merchant =>
      rw [hu, hm] at h
      simp only [Option.some_bind] at h
      cases hr : CATEGORY_SPENDING_RANGES.lookup merchant.category with
      | none => rw [hr] at h; simp at h
      | some range =>
        rw [hr] at h
        simp only [Option.map_some', Option.some.injEq] at h
        exact ⟨user, merchant, range, rfl, rfl, hr, h.symm⟩

lemma unusual_amount_eq_some {users : List User} {merchants : List Merchant}
    {kU kM : ℕ} {txid : String} {now : ℤ} {card4 : ℕ} {mult jlat jlon : ℚ}
    {dev ipa ipb ipc ipd : ℕ} {tx : Transaction}
    (h : generate_unusual_amount users merchants kU kM txid now card4 mult jlat jlon dev ipa ipb ipc ipd = some tx) :
    ∃ user merchant, pyChoice users kU = some user ∧
      pyChoice merchants kM = some merchant ∧
      tx = { transaction_id := txid, timestamp := now, user_id := user.user_id,
             card_number := "****-****-****-" ++ toString card4,
             merchant_id := merchant.merchant_id, merchant_name := merchant.merchant_name,
             merchant_category := merchant.category,
             amount := round2 (user.typical_spending * mult), currency := "USD",
             location_lat := user.home_lat + jlat, location_lon := user.home_lon + jlon,
             device_id := "DEVICE_" ++ toString dev, ip_address := ipStr ipa ipb ipc ipd,
             is_fraud := true, fraud_type := some "unusual_amount" } := by
  unfold generate_unusual_amount at h
  cases hu : pyChoice users kU with
  | none => rw [hu] at h; simp at h
  | some user =>
    cases hm : pyChoice merchants kM with
    | none => rw [hu, hm] at h; simp at h
    | some merchant =>
      rw [hu, hm] at h
      simp only [Option.some_bind, Option.map_some', Option.some.injEq] at h
      exact ⟨user, merchant, rfl, rfl, h.symm⟩

lemma geographic_anomaly_eq_some {users : List User} {merchants : List Merchant}
    {kU kM : ℕ} {txid : String} {now : ℤ} {card4 : ℕ} {dLat sLat dLon sLon amtU : ℚ}
    {dev ipa ipb ipc ipd : ℕ} {tx : Transaction}
    (h : generate_geographic_anomaly users merchants kU kM txid now card4 dLat sLat dLon sLon amtU dev ipa ipb ipc ipd = some tx) :
    ∃ user merchant, pyChoice users kU = some user ∧
      pyChoice merchants kM = some merchant ∧
      tx = { transaction_id := txid, timestamp := now, user_id := user.user_id,
             card_number := "****-****-****-" ++ toString card4,
             merchant_id := merchant.merchant_id, merchant_name := merchant.merchant_name,
             merchant_category := merchant.category,
             amount := round2 amtU, currency := "USD",
             location_lat := clamp US_LAT_RANGE.1 US_LAT_RANGE.2 (user.home_lat + dLat * sLat),
             location_lon := clamp US_LON_RANGE.1 US_LON_RANGE.2 (user.home_lon + dLon * sLon),
             device_id := "DEVICE_" ++ toString dev, ip_address := ipStr ipa ipb ipc ipd,
             is_fraud := true, fraud_type := some "geographic_anomaly" } := by
  unfold generate_geographic_anomaly at h
  cases hu : pyChoice users kU with
  | none => rw [hu] at h; simp at h
  | some user =>
    cases hm : pyChoice merchants kM with
    | none => rw [hu, hm] at h; simp at h
    | some merchant =>
      rw [hu, hm] at h
      simp only [Option.some_bind, Option.map_some', Option.some.injEq] at h
      exact ⟨user, merchant, rfl, rfl, h.symm⟩

lemma time_anomaly_eq_some {users : List User} {merchants : List Merchant}
    {kU kM : ℕ} {txid : String} {now hr minute : ℤ} {card4 : ℕ} {amtU jlat jlon : ℚ}
    {dev ipa ipb ipc ipd : ℕ} {tx : Transaction}
    (h : generate_time_anomaly users merchants kU kM txid now hr minute card4 amtU jlat jlon dev ipa ipb ipc ipd = some tx) :
    ∃ user merchant, pyChoice users kU = some user ∧
      pyChoice merchants kM = some merchant ∧
      tx = { transaction_id := txid, timestamp := replaceHourMinute now hr minute,
             user_id := user.user_id,
             card_number := "****-****-****-" ++ toString card4,
             merchant_id := merchant.merchant_id, merchant_name := merchant.merchant_name,
             merchant_category := merchant.category,
             amount := round2 amtU, currency := "USD",
             location_lat := user.home_lat + jlat, location_lon := user.home_lon + jlon,
             device_id := "DEVICE_" ++ toString dev, ip_address := ipStr ipa ipb ipc ipd,
             is_fraud := true, fraud_type := some "time_anomaly" } := by
  unfold generate_time_anomaly at h
  cases hu : pyChoice users kU with
  | none => rw [hu] at h; simp at h
  | some user =>
    cases hm : pyChoice merchants kM with
    | none => rw [hu, hm] at h; simp at h
    | some merchant =>
      rw [hu, hm] at h
      simp only [Option.some_bind, Option.map_some', Option.some.injEq] at h
      exact ⟨user, merchant, rfl, rfl, h.symm⟩

lemma round_amount_eq_some {users : List User} {merchants : List Merchant}
    {kU kM : ℕ} {txid : String} {now : ℤ} {card4 kAmt : ℕ} {jlat jlon : ℚ}
    {dev ipa ipb ipc ipd : ℕ} {tx : Transaction}
    (h : generate_round_amount users merchants kU kM txid now card4 kAmt jlat jlon dev ipa ipb ipc ipd = some tx) :
    ∃ user merchant, pyChoice users kU = some user ∧
      pyChoice merchants kM = some merchant ∧
      tx = { transaction_id := txid, timestamp := now, user_id := user.user_id,
             card_number := "****-****-****-" ++ toString card4,
             merchant_id := merchant.merchant_id, merchant_name := merchant.merchant_name,
             merchant_category := merchant.category,
             amount := round_amounts.getD (kAmt % round_amounts.length) 0, currency := "USD",
             location_lat := user.home_lat + jlat, location_lon := user.home_lon + jlon,
             device_id := "DEVICE_" ++ toString dev, ip_address := ipStr ipa ipb ipc ipd,
             is_fraud := true, fraud_type := some "round_amount" } := by
  unfold generate_round_amount at h
  cases hu : pyChoice users kU with
  | none => rw [hu] at h; simp at h
  | some user =>
    cases hm : pyChoice merchants kM with
    | none => rw [hu, hm] at h; simp at h
    | some merchant =>
      rw [hu, hm] at h
      simp only [Option.some_bind, Option.map_some', Option.some.injEq] at h
      exact ⟨user, merchant, rfl, rfl, h.symm⟩

lemma high_risk_category_eq_some {users : List User} {merchants : List Merchant}
    {kU kM : ℕ} {txid : String} {now : ℤ} {card4 : ℕ} {amtU jlat jlon : ℚ}
    {dev ipa ipb ipc ipd : ℕ} {tx : Transaction}
    (h : generate_high_risk_category users merchants kU kM txid now card4 amtU jlat jlon dev ipa ipb ipc ipd = some tx) :
    ∃ user merchant, pyChoice users kU = some user ∧
      (if (highRiskMerchants merchants).isEmpty then pyChoice merchants kM
       else pyChoice (highRiskMerchants merchants) kM) = some merchant ∧
      tx = { transaction_id := txid, timestamp := now, user_id := user.user_id,
             card_number := "****-****-****-" ++ toString card4,
             merchant_id := merchant.merchant_id, merchant_name := merchant.merchant_name,
             merchant_category := merchant.category,
             amount := round2 amtU, currency := "USD",
             location_lat := user.home_lat + jlat, location_lon := user.home_lon + jlon,
             device_id := "DEVICE_" ++ toString dev, ip_address := ipStr ipa ipb ipc ipd,
             is_fraud := true, fraud_type := some "high_risk_category" } := by
  unfold generate_high_risk_category at h
  cases hu : pyChoice users kU with
  | none => rw [hu] at h; simp at h
  | some user =>
    cases hm : (if (highRiskMerchants merchants).isEmpty then pyChoice merchants kM
                else pyChoice (highRiskMerchants merchants) kM) with
    | none => rw [hu, hm] at h; simp at h
    | some merchant =>
      rw [hu, hm] at h
      simp only [Option.some_bind, Option.map_some', Option.some.injEq] at h
      exact ⟨user, merchant, rfl, rfl, h.symm⟩

lemma high_frequency_eq_some {users : List User} {merchants : List Merchant}
    {kU n : ℕ} {base : ℤ} {draws : ℕ → HFreqDraw} {txs : List Transaction}
    (h : generate_high_frequency users merchants kU n base draws = some txs) :
    txs.length = n ∧ ∃ user, pyChoice users kU = some user ∧
      ∀ tx ∈ txs, tx.user_id = user.user_id ∧ tx.is_fraud = true ∧
        tx.fraud_type = some "high_frequency" ∧
        ∃ i, i < n ∧ tx.timestamp = base + (draws i).offSec ∧
          tx.card_number = "****-****-****-" ++ toString (draws i).card4 := by
  unfold generate_high_frequency at h
  cases hu : pyChoice users kU with
  | none => rw [hu] at h; simp at h
  | some user =>
    rw [hu] at h
    simp only [Option.some_bind] at h
    cases merchants with
    | nil =>
      cases n with
      | zero =>
        simp only [reduceIte, Option.some.injEq] at h
        subst h
        exact ⟨rfl, user, rfl, by simp⟩
      | succ k =>
        simp at h
    | cons m0 ms =>
      simp only [Option.some.injEq] at h
      subst h
      refine ⟨by simp, user, rfl, ?_⟩
      intro tx htx
      obtain ⟨i, hi, rfl⟩ := List.mem_map.mp htx
      have hin : i < n := List.mem_range.mp hi
      exact ⟨rfl, rfl, rfl, i, hin, rfl, rfl⟩

lemma card_testing_eq_some {users : List User} {merchants : List Merchant}
    {kU n : ℕ} {base : ℤ} {draws : ℕ → CardTestDraw} {txs : List Transaction}
    (h : generate_card_testing users merchants kU n base draws = some txs) :
    txs.length = n ∧ ∃ user, pyChoice users kU = some user ∧
      ∀ tx ∈ txs, tx.user_id = user.user_id ∧ tx.is_fraud = true ∧
        tx.fraud_type = some "card_testing" ∧
        ∃ i, i < n ∧ tx.timestamp = base + (draws i).offMin * 60 ∧
          tx.card_number = "****-****-****-" ++ toString (draws i).card4 := by
  unfold generate_card_testing at h
  cases hu : pyChoice users kU with
  | none => rw [hu] at h; simp at h
  | some user =>
    rw [hu] at h
    simp only [Option.some_bind] at h
    cases merchants with
    | nil =>
      cases n with
      | zero =>
        simp only [reduceIte, Option.some.injEq] at h
        subst h
        exact ⟨rfl, user, rfl, by simp⟩
      | succ k =>
        simp at h
    | cons m0 ms =>
      simp only [Option.some.injEq] at h
      subst h
      refine ⟨by simp, user, rfl, ?_⟩
      intro tx htx
      obtain ⟨i, hi, rfl⟩ := List.mem_map.mp htx
      have hin : i < n := List.mem_range.mp hi
      exact ⟨rfl, rfl, rfl, i, hin, rfl, rfl⟩

/-! ## The transactions the synthesizers can emit -/

/-- `Produced users merchants tx` holds when some synthesizer or
fraud-pattern generator over the given pools can return `tx` (for the
two burst patterns: can return a batch containing `tx`).  The random
draws are quantified over the `random` library's range contracts; the
card-suffix draw bound `randint(1000, 9999)` is recorded because the
serialization claims depend on it. -/
inductive Produced (users : List User) (merchants : List Merchant) : Transaction → Prop where
  | normal (kU kM : ℕ) (txid : String) (now : ℤ) (card4 : ℕ) (t01 jlat jlon : ℚ)
      (dev : ℕ) (ip : String) (tx : Transaction) :
      1000 ≤ card4 → card4 ≤ 9999 →
      generate_normal_transaction users merchants kU kM txid now card4 t01 jlat jlon dev ip = some tx →
      Produced users merchants tx
  | unusual_amount (kU kM : ℕ) (txid : String) (now : ℤ) (card4 : ℕ) (mult jlat jlon : ℚ)
      (dev ipa ipb ipc ipd : ℕ) (tx : Transaction) :
      1000 ≤ card4 → card4 ≤ 9999 →
      generate_unusual_amount users merchants kU kM txid now card4 mult jlat jlon dev ipa ipb ipc ipd = some tx →
      Produced users merchants tx
  | geographic_anomaly (kU kM : ℕ) (txid : String) (now : ℤ) (card4 : ℕ)
      (dLat sLat dLon sLon amtU : ℚ) (dev ipa ipb ipc ipd : ℕ) (tx : Transaction) :
      1000 ≤ card4 → card4 ≤ 9999 →
      generate_geographic_anomaly users merchants kU kM txid now card4 dLat sLat dLon sLon amtU dev ipa ipb ipc ipd = some tx →
      Produced users merchants tx
  | high_frequency (kU n : ℕ) (base : ℤ) (draws : ℕ → HFreqDraw)
      (txs : List Transaction) (tx : Transaction) :
      (∀ i, 1000 ≤ (draws i).card4 ∧ (draws i).card4 ≤ 9999) →
      generate_high_frequency users merchants kU n base draws = some txs →
      tx ∈ txs →
      Produced users merchants tx
  | card_testing (kU n : ℕ) (base : ℤ) (draws : ℕ → CardTestDraw)
      (txs : List Transaction) (tx : Transaction) :
      (∀ i, 1000 ≤ (draws i).card4 ∧ (draws i).card4 ≤ 9999) →
      generate_card_testing users merchants kU n base draws = some txs →
      tx ∈ txs →
      Produced users merchants tx
  | time_anomaly (kU kM : ℕ) (txid : String) (now hr minute : ℤ) (card4 : ℕ)
      (amtU jlat jlon : ℚ) (dev ipa ipb ipc ipd : ℕ) (tx : Transaction) :
      1000 ≤ card4 → card4 ≤ 9999 →
      generate_time_anomaly users merchants kU kM txid now hr minute card4 amtU jlat jlon dev ipa ipb ipc ipd = some tx →
      Produced users merchants tx
  | round_amount (kU kM : ℕ) (txid : String) (now : ℤ) (card4 kAmt : ℕ)
      (jlat jlon : ℚ) (dev ipa ipb ipc ipd : ℕ) (tx : Transaction) :
      1000 ≤ card4 → card4 ≤ 9999 →
      generate_round_amount users merchants kU kM txid now card4 kAmt jlat jlon dev ipa ipb ipc ipd = some tx →
      Produced users merchants tx
  | high_risk_category (kU kM : ℕ) (txid : String) (now : ℤ) (card4 : ℕ)
      (amtU jlat jlon : ℚ) (dev ipa ipb ipc ipd : ℕ) (tx : Transaction) :
      1000 ≤ card4 → card4 ≤ 9999 →
      generate_high_risk_category users merchants kU kM txid now card4 amtU jlat jlon dev ipa ipb ipc ipd = some tx →
      Produced users merchants tx

/-! ## Sample data for concrete instantiations -/

def sampleUser : User :=
  { user_id := "USER_u1", name := "A B", email := "a@example.com", phone := "555-0100",
    home_lat := 30, home_lon := -100, typical_spending := 100, account_age_days := 365 }

def sampleMerchant : Merchant :=
  { merchant_id := "MERCH_m1", merchant_name := "Acme", category := "electronics",
    location_lat := 30, location_lon := -100, average_transaction := 275 }

def sampleUsers : List User := [sampleUser]

def sampleMerchants : List Merchant := [sampleMerchant]

/-! ## C2: the fraud-label invariant -/

/-- C2: for every Transaction produced by any synthesizer or
fraud-pattern generator, `fraud_type` is non-null iff `is_fraud` is
true, and a non-null `fraud_type` is one of the seven documented tags. -/
theorem produced_fraud_type_invariant (users : List User) (merchants : List Merchant)
    (tx : Transaction) (h : Produced users merchants tx) :
    (tx.is_fraud = true ↔ tx.fraud_type ≠ none) ∧
    (∀ f, tx.fraud_type = some f → f ∈ fraudTypeTags) := by
  cases h with
  | normal kU kM txid now card4 t01 jlat jlon dev ip tx h1 h2 h3 =>
    obtain ⟨u, m, r, _, _, _, htx⟩ := normal_transaction_eq_some h3
    subst htx
    exact ⟨by simp, by intro f hf; simp at hf⟩
  | unusual_amount kU kM txid now card4 mult jlat jlon dev ipa ipb ipc ipd tx h1 h2 h3 =>
    obtain ⟨u, m, _, _, htx⟩ := unusual_amount_eq_some h3
    subst htx
    refine ⟨by simp, ?_⟩
    intro f hf
    simp at hf
    subst hf
    decide
  | geographic_anomaly kU kM txid now card4 dLat sLat dLon sLon amtU dev ipa ipb ipc ipd tx h1 h2 h3 =>
    obtain ⟨u, m, _, _, htx⟩ := geographic_anomaly_eq_some h3
    subst htx
    refine ⟨by simp, ?_⟩
    intro f hf
    simp at hf
    subst hf
    decide
  | high_frequency kU n base draws txs tx hb h2 htx =>
    obtain ⟨_, user, _, hall⟩ := high_frequency_eq_some h2
    obtain ⟨_, hif, hft, _⟩ := hall tx htx
    refine ⟨by rw [hif, hft]; simp, ?_⟩
    intro f hf
    rw [hft] at hf
    simp at hf
    subst hf
    decide
  | card_testing kU n base draws txs tx hb h2 htx =>
    obtain ⟨_, user, _, hall⟩ := card_testing_eq_some h2
    obtain ⟨_, hif, hft, _⟩ := hall tx htx
    refine ⟨by rw [hif, hft]; simp, ?_⟩
    intro f hf
    rw [hft] at hf
    simp at hf
    subst hf
    decide
  | time_anomaly kU kM txid now hr minute card4 amtU jlat jlon dev ipa ipb ipc ipd tx h1 h2 h3 =>
    obtain ⟨u, m, _, _, htx⟩ := time_anomaly_eq_some h3
    subst htx
    refine ⟨by simp, ?_⟩
    intro f hf
    simp at hf
    subst hf
    decide
  | round_amount kU kM txid now card4 kAmt jlat jlon dev ipa ipb ipc ipd tx h1 h2 h3 =>
    obtain ⟨u, m, _, _, htx⟩ := round_amount_eq_some h3
    subst htx
    refine ⟨by simp, ?_⟩
    intro f hf
    simp at hf
    subst hf
    decide
  | high_risk_category kU kM txid now card4 amtU jlat jlon dev ipa ipb ipc ipd tx h1 h2 h3 =>
    obtain ⟨u, m, _, _, htx⟩ := high_risk_category_eq_some h3
    subst htx
    refine ⟨by simp, ?_⟩
    intro f hf
    simp at hf
    subst hf
    decide

def unusualTxW : Transaction :=
  { transaction_id := "t1", timestamp := 0, user_id := sampleUser.user_id,
    card_number := "****-****-****-" ++ toString 1234,
    merchant_id := sampleMerchant.merchant_id, merchant_name := sampleMerchant.merchant_name,
    merchant_category := sampleMerchant.category,
    amount := round2 (sampleUser.typical_spending * 15), currency := "USD",
    location_lat := sampleUser.home_lat + 1/2, location_lon := sampleUser.home_lon + 1/2,
    device_id := "DEVICE_" ++ toString 1111, ip_address := ipStr 1 2 3 4,
    is_fraud := true, fraud_type := some "unusual_amount" }

/-- Witness for C2: a concrete `generate_unusual_amount` output
satisfies the invariant. -/
theorem produced_fraud_type_invariant_witness :
    (unusualTxW.is_fraud = true ↔ unusualTxW.fraud_type ≠ none) ∧
    (∀ f, unusualTxW.fraud_type = some f → f ∈ fraudTypeTags) :=
  produced_fraud_type_invariant sampleUsers sampleMerchants unusualTxW
    (Produced.unusual_amount 0 0 "t1" 0 1234 15 (1/2) (1/2) 1111 1 2 3 4 unusualTxW
      (by decide) (by decide) rfl)

/-! ## C10: the card_number field -/

/-- The field list of the spec's §3 `Transaction` data model, written
from the spec's words for comparison with the implementation's
`Transaction` record and its serialization. -/
def specTransactionFieldNames : List String :=
  ["transaction_id", "timestamp", "user_id", "merchant_id", "merchant_name",
   "merchant_category", "amount", "currency", "location_lat", "location_lon",
   "device_id", "ip_address", "is_fraud", "fraud_type"]

/-- C10: every produced Transaction carries a `card_number` of the form
`****-****-****-` followed by a four-digit number (a `randint(1000,
9999)` draw), the key `card_number` appears in the flat dict produced by
`to_dict`, and `card_number` is absent from the spec's Transaction data
model. -/
theorem produced_card_number_field (users : List User) (merchants : List Merchant)
    (tx : Transaction) (h : Produced users merchants tx) :
    (∃ n, 1000 ≤ n ∧ n ≤ 9999 ∧ tx.card_number = "****-****-****-" ++ toString n) ∧
    ("card_number", DVal.s tx.card_number) ∈ tx.to_dict ∧
    "card_number" ∉ specTransactionFieldNames := by
  refine ⟨?_, by simp [Transaction.to_dict], by decide⟩
  cases h with
  | normal kU kM txid now card4 t01 jlat jlon dev ip tx h1 h2 h3 =>
    obtain ⟨u, m, r, _, _, _, htx⟩ := normal_transaction_eq_some h3
    exact ⟨card4, h1, h2, by rw [htx]⟩
  | unusual_amount kU kM txid now card4 mult jlat jlon dev ipa ipb ipc ipd tx h1 h2 h3 =>
    obtain ⟨u, m, _, _, htx⟩ := unusual_amount_eq_some h3
    exact ⟨card4, h1, h2, by rw [htx]⟩
  | geographic_anomaly kU kM txid now card4 dLat sLat dLon sLon amtU dev ipa ipb ipc ipd tx h1 h2 h3 =>
    obtain ⟨u, m, _, _, htx⟩ := geographic_anomaly_eq_some h3
    exact ⟨card4, h1, h2, by rw [htx]⟩
  | high_frequency kU n base draws txs tx hb h2 htx =>
    obtain ⟨_, user, _, hall⟩ := high_frequency_eq_some h2
    obtain ⟨_, _, _, i, _, _, hcn⟩ := hall tx htx
    exact ⟨(draws i).card4, (hb i).1, (hb i).2, hcn⟩
  | card_testing kU n base draws txs tx hb h2 htx =>
    obtain ⟨_, user, _, hall⟩ := card_testing_eq_some h2
    obtain ⟨_, _, _, i, _, _, hcn⟩ := hall tx htx
    exact ⟨(draws i).card4, (hb i).1, (hb i).2, hcn⟩
  | time_anomaly kU kM txid now hr minute card4 amtU jlat jlon dev ipa ipb ipc ipd tx h1 h2 h3 =>
    obtain ⟨u, m, _, _, htx⟩ := time_anomaly_eq_some h3
    exact ⟨card4, h1, h2, by rw [htx]⟩
  | round_amount kU kM txid now card4 kAmt jlat jlon dev ipa ipb ipc ipd tx h1 h2 h3 =>
    obtain ⟨u, m, _, _, htx⟩ := round_amount_eq_some h3
    exact ⟨card4, h1, h2, by rw [htx]⟩
  | high_risk_category kU kM txid now card4 amtU jlat jlon dev ipa ipb ipc ipd tx h1 h2 h3 =>
    obtain ⟨u, m, _, _, htx⟩ := high_risk_category_eq_some h3
    exact ⟨card4, h1, h2, by rw [htx]⟩

def roundTxW : Transaction :=
  { transaction_id := "t2", timestamp := 0, user_id := sampleUser.user_id,
    card_number := "****-****-****-" ++ toString 4321,
    merchant_id := sampleMerchant.merchant_id, merchant_name := sampleMerchant.merchant_name,
    merchant_category := sampleMerchant.category,
    amount := round_amounts.getD (3 % round_amounts.length) 0, currency := "USD",
    location_lat := sampleUser.home_lat + 1, location_lon := sampleUser.home_lon + 1,
    device_id := "DEVICE_" ++ toString 2222, ip_address := ipStr 5 6 7 8,
    is_fraud := true, fraud_type := some "round_amount" }

/-- Witness for C10: a concrete `generate_round_amount` output carries
the masked card number and serializes it. -/
theorem produced_card_number_field_witness :
    (∃ n, 1000 ≤ n ∧ n ≤ 9999 ∧ roundTxW.card_number = "****-****-****-" ++ toString n) ∧
    ("card_number", DVal.s roundTxW.card_number) ∈ roundTxW.to_dict ∧
    "card_number" ∉ specTransactionFieldNames :=
  produced_card_number_field sampleUsers sampleMerchants roundTxW
    (Produced.round_amount 0 0 "t2" 0 4321 3 1 1 2222 5 6 7 8 roundTxW
      (by decide) (by decide) rfl)

/-! ## C1: the Bernoulli trial in `generate_transaction` -/

/-- C1 (code exhibit): `generate_transaction` draws the Bernoulli trial
against `FRAUD_PROBABILITY`, but both branches call
`generate_normal_transaction`, so for every outcome of the trial the
emitted record has `is_fraud = false` — no fraud generator is ever
invoked. -/
theorem generate_transaction_never_fraud (users : List User) (merchants : List Merchant)
    (r : ℚ) (kU kM : ℕ) (txid : String) (now : ℤ) (card4 : ℕ) (t01 jlat jlon : ℚ)
    (dev : ℕ) (ip : String) (tx : Transaction)
    (h : generate_transaction users merchants r kU kM txid now card4 t01 jlat jlon dev ip = some tx) :
    tx.is_fraud = false := by
  unfold generate_transaction at h
  split at h <;>
  · obtain ⟨u, m, rg, _, _, _, htx⟩ := normal_transaction_eq_some h
    rw [htx]

def normalTxW : Transaction :=
  { transaction_id := "t0", timestamp := 0, user_id := sampleUser.user_id,
    card_number := "****-****-****-" ++ toString 1234,
    merchant_id := sampleMerchant.merchant_id, merchant_name := sampleMerchant.merchant_name,
    merchant_category := sampleMerchant.category,
    amount := round2 (50 + (500 - 50) * (1/2)), currency := "USD",
    location_lat := sampleUser.home_lat + (1/2), location_lon := sampleUser.home_lon + (1/2),
    device_id := "DEVICE_" ++ toString 1111, ip_address := "10.0.0.1",
    is_fraud := false, fraud_type := none }

/-- Witness for C1: with the Bernoulli draw `1/100 < FRAUD_PROBABILITY`
(the fraud branch) the emitted record still has `is_fraud = false`. -/
theorem generate_transaction_never_fraud_witness : normalTxW.is_fraud = false :=
  generate_transaction_never_fraud sampleUsers sampleMerchants (1/100) 0 0 "t0" 0 1234
    (1/2) (1/2) (1/2) 1111 "10.0.0.1" normalTxW
    (by
      have hlt : (1 : ℚ) / 100 < FRAUD_PROBABILITY := by norm_num [FRAUD_PROBABILITY]
      unfold generate_transaction
      rw [if_pos hlt]
      rfl)

/-! ## C3: population construction and validation -/

def cUserDraw : UserDraw :=
  { uuid8 := "aaaaaaaa", name := "N", email := "n@example.com", phone := "555-0101",
    lat := 30, lon := -100, spending := 100, age := 100 }

def cMerchantDraw : MerchantDraw :=
  { kCat := 0, uuid8 := "bbbbbbbb", company := "C", lat := 30, lon := -100 }

/-- Counterexample to C3 as stated: constructing the generator with
`num_users = 0` and `num_merchants = -3` does not fail with an
invalid-argument error — it returns normally, with both pools empty
(the `for i in range(n)` loops simply run zero times). -/
theorem init_no_validation_ce :
    TransactionGenerator_init 0 (-3) (fun _ => cUserDraw) (fun _ => cMerchantDraw)
      = { users := [], merchants := [] } := rfl

/-- C3 as amended: construction never raises; when both counts are ≥ 1
the pools are non-empty with exactly the requested sizes, and the
generated ids are unique provided the 8-character uuid slices drawn for
the run are pairwise distinct (the code truncates `uuid4()` to 8
characters and performs no uniqueness check, so distinctness of the
drawn slices is an assumption, not a guarantee). -/
theorem init_population_amended (nU nM : ℤ) (udraws : ℕ → UserDraw) (mdraws : ℕ → MerchantDraw)
    (h1 : 1 ≤ nU) (h2 : 1 ≤ nM)
    (hu : ∀ i j : ℕ, i < nU.toNat → j < nU.toNat → i ≠ j → (udraws i).uuid8 ≠ (udraws j).uuid8)
    (hm : ∀ i j : ℕ, i < nM.toNat → j < nM.toNat → i ≠ j → (mdraws i).uuid8 ≠ (mdraws j).uuid8) :
    (TransactionGenerator_init nU nM udraws mdraws).users ≠ [] ∧
    (TransactionGenerator_init nU nM udraws mdraws).merchants ≠ [] ∧
    (TransactionGenerator_init nU nM udraws mdraws).users.length = nU.toNat ∧
    (TransactionGenerator_init nU nM udraws mdraws).merchants.length = nM.toNat ∧
    ((TransactionGenerator_init nU nM udraws mdraws).users.map User.user_id).Nodup ∧
    ((TransactionGenerator_init nU nM udraws mdraws).merchants.map Merchant.merchant_id).Nodup := by
  have hU : (TransactionGenerator_init nU nM udraws mdraws).users.length = nU.toNat := by
    simp [TransactionGenerator_init, generate_users]
  have hM : (TransactionGenerator_init nU nM udraws mdraws).merchants.length = nM.toNat := by
    simp [TransactionGenerator_init, generate_merchants]
  refine ⟨?_, ?_, hU, hM, ?_, ?_⟩
  · intro hnil
    rw [hnil] at hU
    simp at hU
    omega
  · intro hnil
    rw [hnil] at hM
    simp at hM
    omega
  · show ((generate_users nU udraws).map User.user_id).Nodup
    unfold generate_users
    rw [List.map_map]
    apply List.Nodup.map_on ?_ (List.nodup_range nU.toNat)
    intro i hi j hj hf
    simp only [Function.comp, makeUser] at hf
    by_contra hne
    exact hu i j (List.mem_range.mp hi) (List.mem_range.mp hj) hne
      (string_append_left_cancel hf)
  · show ((generate_merchants nM mdraws).map Merchant.merchant_id).Nodup
    unfold generate_merchants
    rw [List.map_map]
    apply List.Nodup.map_on ?_ (List.nodup_range nM.toNat)
    intro i hi j hj hf
    simp only [Function.comp, makeMerchant] at hf
    by_contra hne
    exact hm i j (List.mem_range.mp hi) (List.mem_range.mp hj) hne
      (string_append_left_cancel hf)

def wUserDraws : ℕ → UserDraw := fun i =>
  { uuid8 := toString i, name := "N", email := "n@example.com", phone := "555-0102",
    lat := 30, lon := -100, spending := 100, age := 100 }

def wMerchantDraws : ℕ → MerchantDraw := fun i =>
  { kCat := i, uuid8 := toString i, company := "C", lat := 30, lon := -100 }

/-- Witness for the amended C3 at `num_users = num_merchants = 2` with
distinct uuid slices. -/
theorem init_population_amended_witness :
    (TransactionGenerator_init 2 2 wUserDraws wMerchantDraws).users ≠ [] ∧
    (TransactionGenerator_init 2 2 wUserDraws wMerchantDraws).merchants ≠ [] ∧
    (TransactionGenerator_init 2 2 wUserDraws wMerchantDraws).users.length = (2 : ℤ).toNat ∧
    (TransactionGenerator_init 2 2 wUserDraws wMerchantDraws).merchants.length = (2 : ℤ).toNat ∧
    ((TransactionGenerator_init 2 2 wUserDraws wMerchantDraws).users.map User.user_id).Nodup ∧
    ((TransactionGenerator_init 2 2 wUserDraws wMerchantDraws).merchants.map Merchant.merchant_id).Nodup :=
  init_population_amended 2 2 wUserDraws wMerchantDraws (by decide) (by decide)
    (by
      intro i j hi hj hne
      have hi2 : i < 2 := by simpa using hi
      have hj2 : j < 2 := by simpa using hj
      simp only [wUserDraws]
      interval_cases i <;> interval_cases j <;> simp_all <;> decide)
    (by
      intro i j hi hj hne
      have hi2 : i < 2 := by simpa using hi
      have hj2 : j < 2 := by simpa using hj
      simp only [wMerchantDraws]
      interval_cases i <;> interval_cases j <;> simp_all <;> decide)

/-! ## C6: unusual_amount bounds -/

/-- C6: the amount of an `unusual_amount` fraud lies between 10× and 20×
the referenced user's `typical_spending`, within the half-cent tolerance
of the two-decimal rounding. -/
theorem unusual_amount_bounds (users : List User) (merchants : List Merchant)
    (kU kM : ℕ) (txid : String) (now : ℤ) (card4 : ℕ) (mult jlat jlon : ℚ)
    (dev ipa ipb ipc ipd : ℕ) (user : User) (tx : Transaction)
    (hs : 0 ≤ user.typical_spending)
    (hm1 : 10 ≤ mult) (hm2 : mult ≤ 20)
    (hu : pyChoice users kU = some user)
    (h : generate_unusual_amount users merchants kU kM txid now card4 mult jlat jlon dev ipa ipb ipc ipd = some tx) :
    10 * user.typical_spending - 1 / 200 ≤ tx.amount ∧
    tx.amount ≤ 20 * user.typical_spending + 1 / 200 := by
  obtain ⟨u, m, hu', _, htx⟩ := unusual_amount_eq_some h
  rw [hu] at hu'
  obtain rfl : user = u := by injection hu'
  subst htx
  have hb := abs_round2_sub (user.typical_spending * mult)
  rw [abs_le] at hb
  have hlow : 10 * user.typical_spending ≤ user.typical_spending * mult := by nlinarith
  have hhigh : user.typical_spending * mult ≤ 20 * user.typical_spending := by nlinarith
  constructor
  · show 10 * user.typical_spending - 1 / 200 ≤ round2 (user.typical_spending * mult)
    linarith [hb.1]
  · show round2 (user.typical_spending * mult) ≤ 20 * user.typical_spending + 1 / 200
    linarith [hb.2]

/-- Witness for C6 at the concrete multiplier 15. -/
theorem unusual_amount_bounds_witness :
    10 * sampleUser.typical_spending - 1 / 200 ≤ unusualTxW.amount ∧
    unusualTxW.amount ≤ 20 * sampleUser.typical_spending + 1 / 200 :=
  unusual_amount_bounds sampleUsers sampleMerchants 0 0 "t1" 0 1234 15 (1/2) (1/2)
    1111 1 2 3 4 sampleUser unusualTxW
    (by norm_num [sampleUser]) (by norm_num) (by norm_num) rfl rfl

/-! ## C7: high_frequency batch shape -/

/-- C7: a `high_frequency` batch has between 8 and 15 records, all its
timestamps lie within 300 seconds of one another, and all records share
one `user_id`. -/
theorem high_frequency_batch_spec (users : List User) (merchants : List Merchant)
    (kU n : ℕ) (base : ℤ) (draws : ℕ → HFreqDraw) (txs : List Transaction)
    (hn1 : 8 ≤ n) (hn2 : n ≤ 15)
    (hoff : ∀ i, 0 ≤ (draws i).offSec ∧ (draws i).offSec ≤ 300)
    (h : generate_high_frequency users merchants kU n base draws = some txs) :
    (8 ≤ txs.length ∧ txs.length ≤ 15) ∧
    (∀ t1 ∈ txs, ∀ t2 ∈ txs, t1.timestamp - t2.timestamp ≤ 300) ∧
    (∀ t1 ∈ txs, ∀ t2 ∈ txs, t1.user_id = t2.user_id) := by
  obtain ⟨hlen, user, hu, hall⟩ := high_frequency_eq_some h
  refine ⟨⟨by omega, by omega⟩, ?_, ?_⟩
  · intro t1 h1 t2 h2
    obtain ⟨_, _, _, i, _, hts1, _⟩ := hall t1 h1
    obtain ⟨_, _, _, j, _, hts2, _⟩ := hall t2 h2
    have o1 := hoff i
    have o2 := hoff j
    rw [hts1, hts2]
    omega
  · intro t1 h1 t2 h2
    obtain ⟨hu1, _⟩ := hall t1 h1
    obtain ⟨hu2, _⟩ := hall t2 h2
    rw [hu1, hu2]

def wHFreqDraw : ℕ → HFreqDraw := fun _ =>
  { kM := 0, txid := "h1", offSec := 100, card4 := 1234, amtU := 100,
    jlat := 0, jlon := 0, dev := 1111, ipa := 1, ipb := 2, ipc := 3, ipd := 4 }

def hfTxW : Transaction :=
  { transaction_id := "h1", timestamp := 0 + 100, user_id := sampleUser.user_id,
    card_number := "****-****-****-" ++ toString 1234,
    merchant_id := sampleMerchant.merchant_id, merchant_name := sampleMerchant.merchant_name,
    merchant_category := sampleMerchant.category,
    amount := round2 100, currency := "USD",
    location_lat := sampleUser.home_lat + 0, location_lon := sampleUser.home_lon + 0,
    device_id := "DEVICE_" ++ toString 1111, ip_address := ipStr 1 2 3 4,
    is_fraud := true, fraud_type := some "high_frequency" }

def hfTxsW : List Transaction := List.replicate 8 hfTxW

/-- Witness for C7: a concrete batch of 8 records. -/
theorem high_frequency_batch_spec_witness :
    (8 ≤ hfTxsW.length ∧ hfTxsW.length ≤ 15) ∧
    (∀ t1 ∈ hfTxsW, ∀ t2 ∈ hfTxsW, t1.timestamp - t2.timestamp ≤ 300) ∧
    (∀ t1 ∈ hfTxsW, ∀ t2 ∈ hfTxsW, t1.user_id = t2.user_id) :=
  high_frequency_batch_spec sampleUsers sampleMerchants 0 8 0 wHFreqDraw hfTxsW
    (by decide) (by decide)
    (by intro i; simp only [wHFreqDraw]; omega)
    rfl

/-! ## C8: generate_random_fraud dispatch -/

/-- The list of single-record generator calls `generate_random_fraud`
chooses among (in source order). -/
def single_record_fraud_calls (users : List User) (merchants : List Merchant)
    (d : RandomFraudDraws) : List (Option Transaction) :=
  [generate_unusual_amount users merchants d.kU d.kM d.txid d.now d.card4
     d.mult d.jlat d.jlon d.dev d.ipa d.ipb d.ipc d.ipd,
   generate_geographic_anomaly users merchants d.kU d.kM d.txid d.now d.card4
     d.dLat d.sLat d.dLon d.sLon d.amtU d.dev d.ipa d.ipb d.ipc d.ipd,
   generate_time_anomaly users merchants d.kU d.kM d.txid d.now d.hr d.minute
     d.card4 d.amtU d.jlat d.jlon d.dev d.ipa d.ipb d.ipc d.ipd,
   generate_round_amount users merchants d.kU d.kM d.txid d.now d.card4 d.kAmt
     d.jlat d.jlon d.dev d.ipa d.ipb d.ipc d.ipd,
   generate_high_risk_category users merchants d.kU d.kM d.txid d.now d.card4
     d.amtU d.jlat d.jlon d.dev d.ipa d.ipb d.ipc d.ipd]

/-- C8: `generate_random_fraud` returns exactly the output of the
selected entry of the five-element single-record generator list (uniform
choice corresponds to a uniform raw draw `g`), and the transaction it
returns carries one of the five single-record tags — never
`high_frequency` or `card_testing`. -/
theorem generate_random_fraud_spec (users : List User) (merchants : List Merchant)
    (g : ℕ) (d : RandomFraudDraws) (tx : Transaction)
    (h : generate_random_fraud users merchants g d = some tx) :
    generate_random_fraud users merchants g d
      = (single_record_fraud_calls users merchants d).getD (g % 5) none ∧
    (tx.fraud_type = some "unusual_amount" ∨ tx.fraud_type = some "geographic_anomaly" ∨
     tx.fraud_type = some "time_anomaly" ∨ tx.fraud_type = some "round_amount" ∨
     tx.fraud_type = some "high_risk_category") ∧
    tx.fraud_type ≠ some "high_frequency" ∧ tx.fraud_type ≠ some "card_testing" := by
  have h5 : g % 5 = 0 ∨ g % 5 = 1 ∨ g % 5 = 2 ∨ g % 5 = 3 ∨ g % 5 = 4 := by omega
  unfold generate_random_fraud at h ⊢
  rcases h5 with h0 | h0 | h0 | h0 | h0 <;> rw [h0] at h ⊢
  · obtain ⟨u, m, _, _, htx⟩ := unusual_amount_eq_some
      (show generate_unusual_amount users merchants d.kU d.kM d.txid d.now d.card4
        d.mult d.jlat d.jlon d.dev d.ipa d.ipb d.ipc d.ipd = some tx from h)
    subst htx
    exact ⟨rfl, Or.inl rfl, by simp, by simp⟩
  · obtain ⟨u, m, _, _, htx⟩ := geographic_anomaly_eq_some
      (show generate_geographic_anomaly users merchants d.kU d.kM d.txid d.now d.card4
        d.dLat d.sLat d.dLon d.sLon d.amtU d.dev d.ipa d.ipb d.ipc d.ipd = some tx from h)
    subst htx
    exact ⟨rfl, Or.inr (Or.inl rfl), by simp, by simp⟩
  · obtain ⟨u, m, _, _, htx⟩ := time_anomaly_eq_some
      (show generate_time_anomaly users merchants d.kU d.kM d.txid d.now d.hr d.minute
        d.card4 d.amtU d.jlat d.jlon d.dev d.ipa d.ipb d.ipc d.ipd = some tx from h)
    subst htx
    exact ⟨rfl, Or.inr (Or.inr (Or.inl rfl)), by simp, by simp⟩
  · obtain ⟨u, m, _, _, htx⟩ := round_amount_eq_some
      (show generate_round_amount users merchants d.kU d.kM d.txid d.now d.card4 d.kAmt
        d.jlat d.jlon d.dev d.ipa d.ipb d.ipc d.ipd = some tx from h)
    subst htx
    exact ⟨rfl, Or.inr (Or.inr (Or.inr (Or.inl rfl))), by simp, by simp⟩
  · obtain ⟨u, m, _, _, htx⟩ := high_risk_category_eq_some
      (show generate_high_risk_category users merchants d.kU d.kM d.txid d.now d.card4
        d.amtU d.jlat d.jlon d.dev d.ipa d.ipb d.ipc d.ipd = some tx from h)
    subst htx
    exact ⟨rfl, Or.inr (Or.inr (Or.inr (Or.inr rfl))), by simp, by simp⟩

def wRandDraws : RandomFraudDraws :=
  { kU := 0, kM := 0, txid := "r1", now := 0, card4 := 1500, mult := 12,
    dLat := 10, sLat := 1, dLon := 10, sLon := 1, hr := 3, minute := 0,
    kAmt := 0, amtU := 300, jlat := 0, jlon := 0, dev := 1234,
    ipa := 1, ipb := 2, ipc := 3, ipd := 4 }

def randTxW : Transaction :=
  { transaction_id := "r1", timestamp := 0, user_id := sampleUser.user_id,
    card_number := "****-****-****-" ++ toString 1500,
    merchant_id := sampleMerchant.merchant_id, merchant_name := sampleMerchant.merchant_name,
    merchant_category := sampleMerchant.category,
    amount := round2 (sampleUser.typical_spending * wRandDraws.mult), currency := "USD",
    location_lat := sampleUser.home_lat + wRandDraws.jlat,
    location_lon := sampleUser.home_lon + wRandDraws.jlon,
    device_id := "DEVICE_" ++ toString 1234, ip_address := ipStr 1 2 3 4,
    is_fraud := true, fraud_type := some "unusual_amount" }

/-- Witness for C8 at draw `g = 0` (the `unusual_amount` branch). -/
theorem generate_random_fraud_spec_witness :
    generate_random_fraud sampleUsers sampleMerchants 0 wRandDraws
      = (single_record_fraud_calls sampleUsers sampleMerchants wRandDraws).getD (0 % 5) none ∧
    (randTxW.fraud_type = some "unusual_amount" ∨ randTxW.fraud_type = some "geographic_anomaly" ∨
     randTxW.fraud_type = some "time_anomaly" ∨ randTxW.fraud_type = some "round_amount" ∨
     randTxW.fraud_type = some "high_risk_category") ∧
    randTxW.fraud_type ≠ some "high_frequency" ∧ randTxW.fraud_type ≠ some "card_testing" :=
  generate_random_fraud_spec sampleUsers sampleMerchants 0 wRandDraws randTxW rfl

/-! ## C9: the effective high-risk merchant subset -/

/-- C9: the high-risk filter names `jewelry`, which is not a configured
merchant category, so over any pool built by `_generate_merchants` the
effective high-risk subset only contains `electronics` and
`online_retail` merchants; when that subset is non-empty the generated
transaction's category is one of those two. -/
theorem high_risk_effective_subset (users : List User) (nM : ℤ) (mdraws : ℕ → MerchantDraw)
    (kU kM : ℕ) (txid : String) (now : ℤ) (card4 : ℕ) (amtU jlat jlon : ℚ)
    (dev ipa ipb ipc ipd : ℕ) (tx : Transaction)
    (hne : highRiskMerchants (generate_merchants nM mdraws) ≠ [])
    (h : generate_high_risk_category users (generate_merchants nM mdraws) kU kM txid now
      card4 amtU jlat jlon dev ipa ipb ipc ipd = some tx) :
    ("jewelry" ∈ high_risk_categories ∧ "jewelry" ∉ MERCHANT_CATEGORIES) ∧
    (∀ m ∈ highRiskMerchants (generate_merchants nM mdraws),
       m.category = "electronics" ∨ m.category = "online_retail") ∧
    (tx.merchant_category = "electronics" ∨ tx.merchant_category = "online_retail") := by
  have hsub : ∀ m ∈ highRiskMerchants (generate_merchants nM mdraws),
      m.category = "electronics" ∨ m.category = "online_retail" := by
    intro m hm
    rw [highRiskMerchants, List.mem_filter] at hm
    obtain ⟨hmem, hcat⟩ := hm
    have hhr : m.category ∈ high_risk_categories := by
      simpa [List.contains_iff_exists_mem_beq, beq_iff_eq] using hcat
    have hconf := generate_merchants_category_mem hmem
    simp only [high_risk_categories, List.mem_cons, List.not_mem_nil, or_false] at hhr
    rcases hhr with hc | hc | hc
    · exact Or.inl hc
    · rw [hc] at hconf
      exact absurd hconf (by decide)
    · exact Or.inr hc
  refine ⟨⟨by decide, by decide⟩, hsub, ?_⟩
  obtain ⟨u, merchant, _, hm', htx⟩ := high_risk_category_eq_some h
  have hcond : ¬((highRiskMerchants (generate_merchants nM mdraws)).isEmpty = true) := by
    simpa [List.isEmpty_iff] using hne
  rw [if_neg hcond] at hm'
  have hmem := pyChoice_mem hm'
  have := hsub merchant hmem
  rw [htx]
  exact this

/-! ## C4: bounding-box clamping -/

def edgeUser : User :=
  { user_id := "USER_e1", name := "E", email := "e@example.com", phone := "555-0103",
    home_lat := 49, home_lon := -70, typical_spending := 100, account_age_days := 100 }

/-- Counterexample to C4 as stated: `generate_high_risk_category` adds a
`uniform(-3, 3)` jitter to the user's home without clamping, so a user
at the northern box edge (latitude 49) with jitter draw 3 yields a
transaction at latitude 52, outside `US_LAT_RANGE`. -/
theorem fraud_location_in_box_ce :
    ((generate_high_risk_category [edgeUser] sampleMerchants 0 0 "t4" 0 1234 2500 3 3
        5000 1 2 3 4).map (fun tx => tx.location_lat)) = some (edgeUser.home_lat + 3) ∧
    ¬ (edgeUser.home_lat + 3 ≤ US_LAT_RANGE.2) := by
  refine ⟨rfl, ?_⟩
  norm_num [edgeUser, US_LAT_RANGE]

/-- C4 as amended: of the fraud-pattern generators only
`generate_geographic_anomaly` clamps its coordinates, and its outputs do
always lie within the configured bounding box; the other generators add
a bounded jitter to the user's home coordinate without clamping and can
leave the box. -/
theorem geographic_anomaly_in_box (users : List User) (merchants : List Merchant)
    (kU kM : ℕ) (txid : String) (now : ℤ) (card4 : ℕ) (dLat sLat dLon sLon amtU : ℚ)
    (dev ipa ipb ipc ipd : ℕ) (tx : Transaction)
    (h : generate_geographic_anomaly users merchants kU kM txid now card4 dLat sLat dLon sLon amtU dev ipa ipb ipc ipd = some tx) :
    US_LAT_RANGE.1 ≤ tx.location_lat ∧ tx.location_lat ≤ US_LAT_RANGE.2 ∧
    US_LON_RANGE.1 ≤ tx.location_lon ∧ tx.location_lon ≤ US_LON_RANGE.2 := by
  obtain ⟨u, m, _, _, htx⟩ := geographic_anomaly_eq_some h
  subst htx
  have h1 := clamp_bounds (u.home_lat + dLat * sLat)
    (show US_LAT_RANGE.1 ≤ US_LAT_RANGE.2 by norm_num [US_LAT_RANGE])
  have h2 := clamp_bounds (u.home_lon + dLon * sLon)
    (show US_LON_RANGE.1 ≤ US_LON_RANGE.2 by norm_num [US_LON_RANGE])
  exact ⟨h1.1, h1.2, h2.1, h2.2⟩

def geoBoxTxW : Transaction :=
  { transaction_id := "g1", timestamp := 0, user_id := sampleUser.user_id,
    card_number := "****-****-****-" ++ toString 1234,
    merchant_id := sampleMerchant.merchant_id, merchant_name := sampleMerchant.merchant_name,
    merchant_category := sampleMerchant.category,
    amount := round2 300, currency := "USD",
    location_lat := clamp US_LAT_RANGE.1 US_LAT_RANGE.2 (sampleUser.home_lat + 10 * 1),
    location_lon := clamp US_LON_RANGE.1 US_LON_RANGE.2 (sampleUser.home_lon + 10 * 1),
    device_id := "DEVICE_" ++ toString 5000, ip_address := ipStr 1 2 3 4,
    is_fraud := true, fraud_type := some "geographic_anomaly" }

/-- Witness for the amended C4 on a concrete `geographic_anomaly`
output. -/
theorem geographic_anomaly_in_box_witness :
    US_LAT_RANGE.1 ≤ geoBoxTxW.location_lat ∧ geoBoxTxW.location_lat ≤ US_LAT_RANGE.2 ∧
    US_LON_RANGE.1 ≤ geoBoxTxW.location_lon ∧ geoBoxTxW.location_lon ≤ US_LON_RANGE.2 :=
  geographic_anomaly_in_box sampleUsers sampleMerchants 0 0 "g1" 0 1234 10 1 10 1 300
    5000 1 2 3 4 geoBoxTxW rfl

/-! ## C5: geographic_anomaly distance from home -/

/-- Simple coordinate distance between two latitude/longitude pairs:
the larger of the per-axis absolute differences. -/
def coordDist (alat alon blat blon : ℚ) : ℚ :=
  max |alat - blat| |alon - blon|

def cornerUser : User :=
  { user_id := "USER_c1", name := "C", email := "c@example.com", phone := "555-0104",
    home_lat := 49, home_lon := -66, typical_spending := 100, account_age_days := 100 }

def geoCornerTx : Transaction :=
  { transaction_id := "g2", timestamp := 0, user_id := cornerUser.user_id,
    card_number := "****-****-****-" ++ toString 1234,
    merchant_id := sampleMerchant.merchant_id, merchant_name := sampleMerchant.merchant_name,
    merchant_category := sampleMerchant.category,
    amount := round2 300, currency := "USD",
    location_lat := clamp US_LAT_RANGE.1 US_LAT_RANGE.2 (cornerUser.home_lat + 10 * 1),
    location_lon := clamp US_LON_RANGE.1 US_LON_RANGE.2 (cornerUser.home_lon + 10 * 1),
    device_id := "DEVICE_" ++ toString 5000, ip_address := ipStr 1 2 3 4,
    is_fraud := true, fraud_type := some "geographic_anomaly" }

/-- Counterexample to C5 as stated: for a user at the north-east corner
of the box (49, -66) with both offsets drawn positive, clamping maps the
far location back onto the home coordinate, so the coordinate distance
is 0, not greater than 5 degrees. -/
theorem geo_distance_ce :
    ((generate_geographic_anomaly [cornerUser] sampleMerchants 0 0 "g2" 0 1234 10 1 10 1
        300 5000 1 2 3 4).map
      (fun tx => coordDist tx.location_lat tx.location_lon cornerUser.home_lat cornerUser.home_lon))
      = some 0 ∧ ¬ ((0 : ℚ) > 5) := by
  constructor
  · rw [show generate_geographic_anomaly [cornerUser] sampleMerchants 0 0 "g2" 0 1234
        10 1 10 1 300 5000 1 2 3 4 = some geoCornerTx from rfl]
    simp only [Option.map_some', Option.some.injEq]
    norm_num [geoCornerTx, cornerUser, coordDist, clamp, US_LAT_RANGE, US_LON_RANGE,
      min_def, max_def]
  · norm_num

/-- C5 as amended: the coordinate distance between a
`geographic_anomaly` transaction and the referenced user's home exceeds
5 degrees whenever the offset location already lies inside the bounding
box (so clamping is a no-op); when clamping truncates the offset, the
distance can drop below the threshold (to 0 at a box corner). -/
theorem geographic_anomaly_distance (users : List User) (merchants : List Merchant)
    (kU kM : ℕ) (txid : String) (now : ℤ) (card4 : ℕ) (dLat sLat dLon sLon amtU : ℚ)
    (dev ipa ipb ipc ipd : ℕ) (user : User) (tx : Transaction)
    (hu : pyChoice users kU = some user)
    (hd1 : 10 ≤ dLat) (hsl : sLat = 1 ∨ sLat = -1)
    (hd3 : 10 ≤ dLon) (hso : sLon = 1 ∨ sLon = -1)
    (hlat1 : US_LAT_RANGE.1 ≤ user.home_lat + dLat * sLat)
    (hlat2 : user.home_lat + dLat * sLat ≤ US_LAT_RANGE.2)
    (hlon1 : US_LON_RANGE.1 ≤ user.home_lon + dLon * sLon)
    (hlon2 : user.home_lon + dLon * sLon ≤ US_LON_RANGE.2)
    (h : generate_geographic_anomaly users merchants kU kM txid now card4 dLat sLat dLon sLon amtU dev ipa ipb ipc ipd = some tx) :
    5 < coordDist tx.location_lat tx.location_lon user.home_lat user.home_lon := by
  obtain ⟨u, m, hu', _, htx⟩ := geographic_anomaly_eq_some h
  rw [hu] at hu'
  obtain rfl : user = u := by injection hu'
  subst htx
  show 5 < coordDist (clamp US_LAT_RANGE.1 US_LAT_RANGE.2 (user.home_lat + dLat * sLat))
      (clamp US_LON_RANGE.1 US_LON_RANGE.2 (user.home_lon + dLon * sLon))
      user.home_lat user.home_lon
  rw [clamp_of_mem hlat1 hlat2, clamp_of_mem hlon1 hlon2]
  have habs : |user.home_lat + dLat * sLat - user.home_lat| = dLat := by
    rcases hsl with rfl | rfl
    · rw [show user.home_lat + dLat * 1 - user.home_lat = dLat by ring]
      exact abs_of_nonneg (by linarith)
    · rw [show user.home_lat + dLat * -1 - user.home_lat = -dLat by ring]
      rw [abs_neg]
      exact abs_of_nonneg (by linarith)
  calc (5 : ℚ) < dLat := by linarith
    _ = |user.home_lat + dLat * sLat - user.home_lat| := habs.symm
    _ ≤ coordDist (user.home_lat + dLat * sLat) (user.home_lon + dLon * sLon)
        user.home_lat user.home_lon := le_max_left _ _

/-- Witness for the amended C5: user at (30, -100), both offsets 10 with
positive sign, landing inside the box. -/
theorem geographic_anomaly_distance_witness :
    5 < coordDist geoBoxTxW.location_lat geoBoxTxW.location_lon
      sampleUser.home_lat sampleUser.home_lon :=
  geographic_anomaly_distance sampleUsers sampleMerchants 0 0 "g1" 0 1234 10 1 10 1 300
    5000 1 2 3 4 sampleUser geoBoxTxW rfl
    (by norm_num) (Or.inl rfl) (by norm_num) (Or.inl rfl)
    (by norm_num [sampleUser, US_LAT_RANGE]) (by norm_num [sampleUser, US_LAT_RANGE])
    (by norm_num [sampleUser, US_LON_RANGE]) (by norm_num [sampleUser, US_LON_RANGE])
    rfl

def wC9Draws : ℕ → MerchantDraw := fun i =>
  { kCat := 4, uuid8 := toString i, company := "HR", lat := 30, lon := -100 }

def wC9Merchant : Merchant := makeMerchant (wC9Draws 0)

def hrTxW : Transaction :=
  { transaction_id := "t9", timestamp := 0, user_id := sampleUser.user_id,
    card_number := "****-****-****-" ++ toString 1234,
    merchant_id := wC9Merchant.merchant_id, merchant_name := wC9Merchant.merchant_name,
    merchant_category := wC9Merchant.category,
    amount := round2 2500, currency := "USD",
    location_lat := sampleUser.home_lat + 0, location_lon := sampleUser.home_lon + 0,
    device_id := "DEVICE_" ++ toString 5000, ip_address := ipStr 1 2 3 4,
    is_fraud := true, fraud_type := some "high_risk_category" }

/-- Witness for C9 over a one-merchant pool of category `electronics`. -/
theorem high_risk_effective_subset_witness :
    ("jewelry" ∈ high_risk_categories ∧ "jewelry" ∉ MERCHANT_CATEGORIES) ∧
    (∀ m ∈ highRiskMerchants (generate_merchants 1 wC9Draws),
       m.category = "electronics" ∨ m.category = "online_retail") ∧
    (hrTxW.merchant_category = "electronics" ∨ hrTxW.merchant_category = "online_retail") :=
  high_risk_effective_subset sampleUsers 1 wC9Draws 0 0 "t9" 0 1234 2500 0 0
    5000 1 2 3 4 hrTxW (by decide) rfl
